import Mathlib

/-!
Verification of the Aite.studio build-server repository (a family of
near-duplicate Express services in `server.js` and `src/unnamed/part_*`).

The JavaScript handlers are shallowly embedded as pure Lean functions:
string-processing helpers work on `List Char` cores wrapped in `String`;
an HTTP handler body becomes a function from its request data and an
upstream oracle (the results that Cloudinary / GitHub would return) to the
chronological list of externally visible steps it performs (upstream
calls, temp-directory cleanup, and the HTTP response it sends).
-/

-- =============================================================================
-- JavaScript string primitives
-- =============================================================================

/-- Characters treated as whitespace by JavaScript's `String.prototype.trim`
and the regex class `\s` (codes: TAB LF VT FF CR SP NBSP LS PS BOM). -/
def jsWhitespace (c : Char) : Bool :=
  c.toNat = 32 || c.toNat = 9 || c.toNat = 10 || c.toNat = 13 ||
  c.toNat = 11 || c.toNat = 12 || c.toNat = 160 ||
  c.toNat = 8232 || c.toNat = 8233 || c.toNat = 65279

/-- `s.trim()` on the character list: drop whitespace from both ends. -/
def jsTrim (l : List Char) : List Char :=
  ((l.dropWhile jsWhitespace).reverse.dropWhile jsWhitespace).reverse

/-- Membership in the regex class `[a-z0-9]` with the `i` flag, i.e. ASCII
letters of either case (codes 97-122 and 65-90) and digits (48-57). -/
def isAlnumCI (c : Char) : Bool :=
  (97 ≤ c.toNat && c.toNat ≤ 122) || (65 ≤ c.toNat && c.toNat ≤ 90) ||
  (48 ≤ c.toNat && c.toNat ≤ 57)

/-- One character of `.replace(/[^a-z0-9]/gi, '_')`. -/
def replaceNonAlnumChar (c : Char) : Char :=
  if isAlnumCI c then c else '_'

/-- `.replace(/_+/g, '_')`: collapse every maximal run of underscores to a
single underscore. -/
def collapseUnderscores : List Char → List Char
  | [] => []
  | [c] => [c]
  | a :: b :: rest =>
    if a = '_' && b = '_' then collapseUnderscores (b :: rest)
    else a :: collapseUnderscores (b :: rest)

/-- One character of `.toLowerCase()`: uppercase ASCII (codes 65-90) is
shifted down by 32; every call site below applies it to ASCII-only data,
where this agrees with JavaScript. -/
def toLowerChar (c : Char) : Char :=
  if 65 ≤ c.toNat && c.toNat ≤ 90 then Char.ofNat (c.toNat + 32) else c

namespace ServerJs

/-- `sanitizeFilename` from `server.js` lines 152-157:
`String(name || '').trim().replace(/[^a-z0-9]/gi, '_').replace(/_+/g, '_').toLowerCase()`. -/
def sanitizeFilename (s : String) : String :=
  ⟨(collapseUnderscores ((jsTrim s.data).map replaceNonAlnumChar)).map toLowerChar⟩

end ServerJs

namespace Part000

/-- `sanitizeFilename` from `src/unnamed/part_000` lines 29-31 (also the
inline payload sanitization in `part_004` and `part_007`):
`name.trim().replace(/[^a-z0-9]/gi, '_').toLowerCase()`. -/
def sanitizeFilename (s : String) : String :=
  ⟨((jsTrim s.data).map replaceNonAlnumChar).map toLowerChar⟩

end Part000

/-- The output alphabet claimed for sanitized names: lowercase ASCII
letters, digits and underscore. -/
def isLowerAlnumU (c : Char) : Bool :=
  (97 ≤ c.toNat && c.toNat ≤ 122) || (48 ≤ c.toNat && c.toNat ≤ 57) || c = '_'

-- =============================================================================
-- Lemmas about the sanitization pipeline
-- =============================================================================

theorem mem_collapseUnderscores {c : Char} :
    ∀ {l : List Char}, c ∈ collapseUnderscores l → c ∈ l := by
  intro l
  induction l with
  | nil => intro h; exact absurd h (by simp [collapseUnderscores])
  | cons a tail ih =>
    cases tail with
    | nil => simp [collapseUnderscores]
    | cons b rest =>
      intro h
      rw [collapseUnderscores] at h
      by_cases hab : (a = '_' && b = '_') = true
      · simp only [hab, if_pos] at h
        exact List.mem_cons_of_mem a (ih h)
      · simp only [hab, if_neg, Bool.not_eq_true] at h
        rcases List.mem_cons.mp h with h1 | h2
        · exact h1 ▸ List.mem_cons_self a _
        · exact List.mem_cons_of_mem a (ih h2)

theorem replaceNonAlnumChar_class (c : Char) :
    isAlnumCI (replaceNonAlnumChar c) ∨ replaceNonAlnumChar c = '_' := by
  unfold replaceNonAlnumChar
  by_cases h : isAlnumCI c = true
  · simp [h]
  · simp [h]

theorem toLowerChar_lowerAlnumU {c : Char} (h : isAlnumCI c ∨ c = '_') :
    isLowerAlnumU (toLowerChar c) := by
  rcases h with h | h
  · unfold isAlnumCI at h
    simp only [Bool.or_eq_true, Bool.and_eq_true, decide_eq_true_iff] at h
    unfold toLowerChar
    rcases h with (h | h) | h
    · rw [if_neg (by simp only [Bool.and_eq_true, decide_eq_true_iff]; omega)]
      simp only [isLowerAlnumU, Bool.or_eq_true, Bool.and_eq_true, decide_eq_true_iff]
      left; left; omega
    · rw [if_pos (by simp only [Bool.and_eq_true, decide_eq_true_iff]; omega)]
      have h65 : 65 ≤ c.toNat := h.1
      have h90 : c.toNat ≤ 90 := h.2
      generalize hn : c.toNat = n at h65 h90
      interval_cases n <;> decide
    · rw [if_neg (by simp only [Bool.and_eq_true, decide_eq_true_iff]; omega)]
      simp only [isLowerAlnumU, Bool.or_eq_true, Bool.and_eq_true, decide_eq_true_iff]
      left; right; omega
  · subst h; decide

theorem sanitize_chars_serverjs (s : String) :
    ∀ c ∈ (ServerJs.sanitizeFilename s).data, isLowerAlnumU c := by
  intro c hc
  have hdata : (ServerJs.sanitizeFilename s).data =
      (collapseUnderscores ((jsTrim s.data).map replaceNonAlnumChar)).map toLowerChar := rfl
  rw [hdata] at hc
  rcases List.mem_map.mp hc with ⟨b, hb, hbc⟩
  have hb2 : b ∈ (jsTrim s.data).map replaceNonAlnumChar := mem_collapseUnderscores hb
  rcases List.mem_map.mp hb2 with ⟨a, _, hab⟩
  subst hbc
  subst hab
  exact toLowerChar_lowerAlnumU (replaceNonAlnumChar_class a)

theorem sanitize_chars_part000 (s : String) :
    ∀ c ∈ (Part000.sanitizeFilename s).data, isLowerAlnumU c := by
  intro c hc
  have hdata : (Part000.sanitizeFilename s).data =
      ((jsTrim s.data).map replaceNonAlnumChar).map toLowerChar := rfl
  rw [hdata] at hc
  rcases List.mem_map.mp hc with ⟨b, hb, hbc⟩
  rcases List.mem_map.mp hb with ⟨a, _, hab⟩
  subst hbc
  subst hab
  exact toLowerChar_lowerAlnumU (replaceNonAlnumChar_class a)

theorem map_eq_self_of_fixed {f : Char → Char} :
    ∀ {l : List Char}, (∀ c ∈ l, f c = c) → l.map f = l := by
  intro l
  induction l with
  | nil => intro _; rfl
  | cons a t ih =>
    intro h
    simp only [List.map_cons]
    rw [h a (List.mem_cons_self a t), ih (fun c hc => h c (List.mem_cons_of_mem a hc))]

theorem dropWhile_eq_self_of_none {p : Char → Bool} :
    ∀ {l : List Char}, (∀ c ∈ l, p c = false) → l.dropWhile p = l := by
  intro l h
  cases l with
  | nil => rfl
  | cons a t =>
    rw [List.dropWhile_cons, if_neg]
    rw [h a (List.mem_cons_self a t)]
    simp

theorem jsTrim_eq_self {l : List Char} (h : ∀ c ∈ l, jsWhitespace c = false) :
    jsTrim l = l := by
  unfold jsTrim
  rw [dropWhile_eq_self_of_none h]
  rw [dropWhile_eq_self_of_none (fun c hc => h c (List.mem_reverse.mp hc))]
  exact List.reverse_reverse l

theorem lowerAlnumU_not_ws {c : Char} (h : isLowerAlnumU c) : jsWhitespace c = false := by
  simp only [isLowerAlnumU, Bool.or_eq_true, Bool.and_eq_true, decide_eq_true_iff] at h
  rcases h with (h | h) | h
  · simp only [jsWhitespace, Bool.or_eq_false_iff, decide_eq_false_iff_not]
    omega
  · simp only [jsWhitespace, Bool.or_eq_false_iff, decide_eq_false_iff_not]
    omega
  · subst h; decide

theorem lowerAlnumU_replace_fix {c : Char} (h : isLowerAlnumU c) :
    replaceNonAlnumChar c = c := by
  simp only [isLowerAlnumU, Bool.or_eq_true, Bool.and_eq_true, decide_eq_true_iff] at h
  rcases h with (h | h) | h
  · rw [replaceNonAlnumChar, if_pos]
    simp only [isAlnumCI, Bool.or_eq_true, Bool.and_eq_true, decide_eq_true_iff]
    left; left; omega
  · rw [replaceNonAlnumChar, if_pos]
    simp only [isAlnumCI, Bool.or_eq_true, Bool.and_eq_true, decide_eq_true_iff]
    right; omega
  · subst h; decide

theorem lowerAlnumU_toLower_fix {c : Char} (h : isLowerAlnumU c) :
    toLowerChar c = c := by
  simp only [isLowerAlnumU, Bool.or_eq_true, Bool.and_eq_true, decide_eq_true_iff] at h
  rcases h with (h | h) | h
  · rw [toLowerChar, if_neg]
    simp only [Bool.and_eq_true, decide_eq_true_iff]
    omega
  · rw [toLowerChar, if_neg]
    simp only [Bool.and_eq_true, decide_eq_true_iff]
    omega
  · subst h; decide

/-- Invariant produced by the collapsing pass: no two adjacent underscores. -/
def noUU : List Char → Bool
  | a :: b :: rest => (!(a = '_' && b = '_')) && noUU (b :: rest)
  | _ => true

theorem collapseUnderscores_head (b : Char) :
    ∀ rest : List Char, ∃ t, collapseUnderscores (b :: rest) = b :: t := by
  intro rest
  induction rest generalizing b with
  | nil => exact ⟨[], rfl⟩
  | cons c rs ih =>
    rw [collapseUnderscores]
    by_cases h : (b = '_' && c = '_') = true
    · simp only [h, if_pos]
      rcases ih c with ⟨t, ht⟩
      rw [ht]
      simp only [Bool.and_eq_true, decide_eq_true_iff] at h
      exact ⟨t, by rw [h.1, h.2]⟩
    · simp only [h, if_neg, Bool.not_eq_true]
      exact ⟨collapseUnderscores (c :: rs), rfl⟩

theorem noUU_collapseUnderscores : ∀ l : List Char, noUU (collapseUnderscores l) := by
  intro l
  induction l with
  | nil => rfl
  | cons a t ih =>
    cases t with
    | nil => rfl
    | cons b rest =>
      rw [collapseUnderscores]
      by_cases h : (a = '_' && b = '_') = true
      · simp only [h, if_pos]; exact ih
      · simp only [h, if_neg, Bool.not_eq_true]
        rcases collapseUnderscores_head b rest with ⟨t2, ht2⟩
        rw [ht2]
        rw [noUU, Bool.and_eq_true]
        refine ⟨by simp [h], ?_⟩
        rw [← ht2]; exact ih

theorem collapseUnderscores_eq_self : ∀ {l : List Char}, noUU l → collapseUnderscores l = l := by
  intro l
  induction l with
  | nil => intro _; rfl
  | cons a t ih =>
    cases t with
    | nil => intro _; rfl
    | cons b rest =>
      intro h
      rw [noUU, Bool.and_eq_true] at h
      have hab : ¬ ((a = '_' && b = '_') = true) := by
        have h1 := h.1
        simp only [Bool.not_eq_eq_eq_not, Bool.not_true, Bool.and_eq_false_iff,
          decide_eq_false_iff_not] at h1
        simp only [Bool.and_eq_true, decide_eq_true_iff, not_and_or]
        exact h1.imp id id
      rw [collapseUnderscores, if_neg hab, ih h.2]

theorem toLowerChar_underscore_iff (c : Char) : (toLowerChar c = '_') ↔ (c = '_') := by
  constructor
  · intro h
    rw [toLowerChar] at h
    by_cases hc : (65 ≤ c.toNat && c.toNat ≤ 90) = true
    · rw [if_pos hc] at h
      exfalso
      simp only [Bool.and_eq_true, decide_eq_true_iff] at hc
      have h65 : 65 ≤ c.toNat := hc.1
      have h90 : c.toNat ≤ 90 := hc.2
      generalize hn : c.toNat = n at h65 h90 h
      interval_cases n <;> exact absurd h (by decide)
    · rwa [if_neg hc] at h
  · intro h; subst h; decide

theorem noUU_map_toLower : ∀ {l : List Char}, noUU l → noUU (l.map toLowerChar) := by
  intro l
  induction l with
  | nil => intro _; rfl
  | cons a t ih =>
    cases t with
    | nil => intro _; rfl
    | cons b rest =>
      intro h
      rw [noUU, Bool.and_eq_true] at h
      simp only [List.map_cons]
      rw [noUU, Bool.and_eq_true]
      constructor
      · have := h.1
        simp only [Bool.not_eq_eq_eq_not, Bool.not_true, Bool.and_eq_false_iff,
          decide_eq_false_iff_not] at this ⊢
        rcases this with h1 | h1
        · left; intro hx; exact h1 ((toLowerChar_underscore_iff a).mp hx)
        · right; intro hx; exact h1 ((toLowerChar_underscore_iff b).mp hx)
      · exact ih h.2

theorem sanitize_pipeline_fixed {l : List Char} (hcls : ∀ c ∈ l, isLowerAlnumU c)
    (hUU : noUU l) :
    (collapseUnderscores ((jsTrim l).map replaceNonAlnumChar)).map toLowerChar = l := by
  rw [jsTrim_eq_self (fun c hc => lowerAlnumU_not_ws (hcls c hc))]
  rw [map_eq_self_of_fixed (fun c hc => lowerAlnumU_replace_fix (hcls c hc))]
  rw [collapseUnderscores_eq_self hUU]
  exact map_eq_self_of_fixed (fun c hc => lowerAlnumU_toLower_fix (hcls c hc))

theorem sanitize_idem_serverjs (s : String) :
    ServerJs.sanitizeFilename (ServerJs.sanitizeFilename s) = ServerJs.sanitizeFilename s := by
  have hcls : ∀ c ∈ (ServerJs.sanitizeFilename s).data, isLowerAlnumU c :=
    sanitize_chars_serverjs s
  have hUU : noUU (ServerJs.sanitizeFilename s).data :=
    noUU_map_toLower (noUU_collapseUnderscores _)
  show (⟨(collapseUnderscores
      ((jsTrim (ServerJs.sanitizeFilename s).data).map replaceNonAlnumChar)).map toLowerChar⟩
      : String) = ServerJs.sanitizeFilename s
  rw [sanitize_pipeline_fixed hcls hUU]

theorem sanitize_idem_part000 (s : String) :
    Part000.sanitizeFilename (Part000.sanitizeFilename s) = Part000.sanitizeFilename s := by
  have hcls : ∀ c ∈ (Part000.sanitizeFilename s).data, isLowerAlnumU c :=
    sanitize_chars_part000 s
  show (⟨((jsTrim (Part000.sanitizeFilename s).data).map replaceNonAlnumChar).map toLowerChar⟩
      : String) = Part000.sanitizeFilename s
  rw [jsTrim_eq_self (fun c hc => lowerAlnumU_not_ws (hcls c hc))]
  rw [map_eq_self_of_fixed (fun c hc => lowerAlnumU_replace_fix (hcls c hc))]
  rw [map_eq_self_of_fixed (fun c hc => lowerAlnumU_toLower_fix (hcls c hc))]

/-- **C8.** For every input string, `sanitizeFilename` (both the `server.js`
version and the `part_000` version) returns a string consisting only of
lowercase ASCII letters, digits, and underscores, and it is idempotent:
applying it to its own output returns that output unchanged. -/
theorem c8_sanitizeFilename_alphabet_and_idempotent :
    (∀ s : String, ∀ c ∈ (ServerJs.sanitizeFilename s).data, isLowerAlnumU c) ∧
    (∀ s : String,
      ServerJs.sanitizeFilename (ServerJs.sanitizeFilename s) = ServerJs.sanitizeFilename s) ∧
    (∀ s : String, ∀ c ∈ (Part000.sanitizeFilename s).data, isLowerAlnumU c) ∧
    (∀ s : String,
      Part000.sanitizeFilename (Part000.sanitizeFilename s) = Part000.sanitizeFilename s) :=
  ⟨sanitize_chars_serverjs, sanitize_idem_serverjs, sanitize_chars_part000, sanitize_idem_part000⟩

/-- Witness for **C8** at the concrete input `"  My--App 7 "`. -/
theorem c8_witness :
    isLowerAlnumU 'm' = true ∧ isLowerAlnumU '7' = true ∧
    ServerJs.sanitizeFilename (ServerJs.sanitizeFilename "  My--App 7 ") =
      ServerJs.sanitizeFilename "  My--App 7 " ∧
    Part000.sanitizeFilename (Part000.sanitizeFilename "  My--App 7 ") =
      Part000.sanitizeFilename "  My--App 7 " :=
  ⟨c8_sanitizeFilename_alphabet_and_idempotent.1 "  My--App 7 " 'm' (by decide),
   c8_sanitizeFilename_alphabet_and_idempotent.2.2.1 "  My--App 7 " '7' (by decide),
   c8_sanitizeFilename_alphabet_and_idempotent.2.1 "  My--App 7 ",
   c8_sanitizeFilename_alphabet_and_idempotent.2.2.2 "  My--App 7 "⟩

-- =============================================================================
-- ZIP archives and detectFlutterVersion
-- =============================================================================

/-- One AdmZip entry: its `entryName` and the UTF-8 text of `getData()`. -/
structure ZipEntry where
  entryName : List Char
  content : List Char
deriving DecidableEq

/-- Result of `new AdmZip(zipBuffer)` followed by `getEntries()`: `none`
models the constructor or `getEntries` throwing on a buffer that is not a
well-formed ZIP archive (caught by the surrounding `try`/`catch`). -/
abbrev ZipArchive := Option (List ZipEntry)

/-- `startsWithL p l` tests whether `p` starts the list `l`. -/
def startsWithL : List Char → List Char → Bool
  | [], _ => true
  | _ :: _, [] => false
  | p :: ps, c :: cs => p = c && startsWithL ps cs

/-- JavaScript `String.prototype.includes`: substring containment. -/
def containsSub (needle : List Char) : List Char → Bool
  | [] => startsWithL needle []
  | c :: cs => startsWithL needle (c :: cs) || containsSub needle cs

/-- The pubspec-search loop shared by the `detectFlutterVersion` variants:
the first entry whose name ends with `pubspec.yaml` and does not contain
`__MACOSX`. -/
def findPubspec (entries : List ZipEntry) : Option ZipEntry :=
  entries.find? (fun e =>
    ("pubspec.yaml".data.isSuffixOf e.entryName) &&
    !(containsSub "__MACOSX".data e.entryName))

/-- Membership in the regex class `[\d.]`. -/
def isDigitDot (c : Char) : Bool := (48 ≤ c.toNat && c.toNat ≤ 57) || c = '.'

/-- Attempt to match the regex `sdk:\s*['"]?>=?([\d.]+)` at the head of
`l`, returning the capture group.  The quote, `>` and `=` steps are
deterministic because the alternatives at each backtracking point cannot
start the remainder of the pattern. -/
def matchSdkAt (l : List Char) : Option (List Char) :=
  match l with
  | 's' :: 'd' :: 'k' :: ':' :: rest =>
    let r1 := rest.dropWhile jsWhitespace
    let r2 := match r1 with
      | c :: r => if c = Char.ofNat 39 || c = Char.ofNat 34 then r else c :: r
      | [] => []
    match r2 with
    | '>' :: r3 =>
      let r4 := match r3 with
        | '=' :: r => r
        | r => r
      let cap := r4.takeWhile isDigitDot
      if cap.isEmpty then none else some cap
    | _ => none
  | _ => none

/-- Leftmost regex match: try `matchSdkAt` at every position. -/
def sdkCapture : List Char → Option (List Char)
  | [] => none
  | c :: cs =>
    match matchSdkAt (c :: cs) with
    | some cap => some cap
    | none => sdkCapture cs

/-- Numeric value of a digit list. -/
def digitsVal (ds : List Char) : Nat := ds.foldl (fun n c => 10 * n + (c.toNat - 48)) 0

/-- A non-negative decimal number `intpart + fracval / 10 ^ fraclen`, the
exact value produced by `parseFloat` on a digits-and-dots string (kept in
`Nat` components so that concrete runs reduce in the kernel). -/
structure JsNumber where
  intpart : Nat
  fracval : Nat
  fraclen : Nat
deriving DecidableEq

/-- The rational value of a parsed number. -/
def JsNumber.toRat (v : JsNumber) : ℚ :=
  (v.intpart : ℚ) + (v.fracval : ℚ) / (10 : ℚ) ^ v.fraclen

/-- JavaScript `parseFloat` restricted to the capture alphabet (digits and
dots): the longest valid decimal prefix, `none` when no prefix is a number
(JS `NaN`). -/
def jsParseFloatNum (l : List Char) : Option JsNumber :=
  let isDig : Char → Bool := fun c => 48 ≤ c.toNat && c.toNat ≤ 57
  let ip := l.takeWhile isDig
  let rest := l.drop ip.length
  match ip, rest with
  | [], '.' :: r =>
    let fp := r.takeWhile isDig
    if fp.isEmpty then none else some ⟨0, digitsVal fp, fp.length⟩
  | [], _ => none
  | _ :: _, '.' :: r =>
    let fp := r.takeWhile isDig
    some ⟨digitsVal ip, digitsVal fp, fp.length⟩
  | _ :: _, _ => some ⟨digitsVal ip, 0, 0⟩

namespace Part007

/-- `detectFlutterVersion` from `src/unnamed/part_007` lines 28-59: find
`pubspec.yaml`, match the `sdk:` constraint, then
`>= 3.0 → '3.24.3'`, `>= 2.12 → '3.10.0'`, default `'3.24.3'`
(the `catch` branch is the `none` archive case). -/
def detectFlutterVersion (zipBuffer : ZipArchive) : String :=
  match zipBuffer with
  | none => "3.24.3"
  | some entries =>
    match findPubspec entries with
    | none => "3.24.3"
    | some entry =>
      match sdkCapture entry.content with
      | none => "3.24.3"
      | some cap =>
        match jsParseFloatNum cap with
        | none => "3.24.3"
        | some num =>
          if (3.0 : ℚ) ≤ num.toRat then "3.24.3"
          else if (2.12 : ℚ) ≤ num.toRat then "3.10.0"
          else "3.24.3"

end Part007

namespace Part010

/-- `detectFlutterVersion` from the second service in `src/unnamed/part_010`
(lines 164-194): same search and match, mapped through
`>= 3.5 → '3.24.0'`, `>= 3.3 → '3.22.0'`, `>= 3.0 → '3.16.0'`,
`>= 2.12 → '3.7.0'`, default `'3.24.0'`. -/
def detectFlutterVersion (zipBuffer : ZipArchive) : String :=
  match zipBuffer with
  | none => "3.24.0"
  | some entries =>
    match findPubspec entries with
    | none => "3.24.0"
    | some entry =>
      match sdkCapture entry.content with
      | none => "3.24.0"
      | some cap =>
        match jsParseFloatNum cap with
        | none => "3.24.0"
        | some num =>
          if (3.5 : ℚ) ≤ num.toRat then "3.24.0"
          else if (3.3 : ℚ) ≤ num.toRat then "3.22.0"
          else if (3.0 : ℚ) ≤ num.toRat then "3.16.0"
          else if (2.12 : ℚ) ≤ num.toRat then "3.7.0"
          else "3.24.0"

end Part010

namespace Part004

/-- `detectFlutterVersion` from `src/unnamed/part_004` lines 36-58: the
function scans for `pubspec.yaml` only to log its presence; every path
(found, not found, or parse failure) returns `'3.24.3'`. -/
def detectFlutterVersion (_zipBuffer : ZipArchive) : String := "3.24.3"

end Part004

/-- The parsed Dart SDK constraint of an archive, read the way the
`detectFlutterVersion` variants read it: first matching `pubspec.yaml`
entry, first `sdk:` regex match, parsed numerically. -/
def dartConstraintNum (zipBuffer : ZipArchive) : Option JsNumber :=
  match zipBuffer with
  | none => none
  | some entries =>
    match findPubspec entries with
    | none => none
    | some entry =>
      match sdkCapture entry.content with
      | none => none
      | some cap => jsParseFloatNum cap

/-- The Dart SDK constraint as a rational number. -/
def dartConstraintOf (zipBuffer : ZipArchive) : Option ℚ :=
  (dartConstraintNum zipBuffer).map JsNumber.toRat

/-- The claimed version mapping, written from the claim's own words: a
matched Dart version `>= 3.0` yields `'3.24.3'`, `>= 2.12` yields
`'3.10.0'`, and any other case yields the default `'3.24.3'`. -/
def claimedVersionMapping : Option ℚ → String
  | some v =>
    if (3.0 : ℚ) ≤ v then "3.24.3"
    else if (2.12 : ℚ) ≤ v then "3.10.0"
    else "3.24.3"
  | none => "3.24.3"

/-- A concrete uploaded archive whose manifest pins `sdk: ">=2.12.0 <3.0.0"`
(a null-safety project below Dart 3). -/
def nullSafetyArchive : ZipArchive :=
  some [⟨"pubspec.yaml".data, "environment:\n  sdk: \">=2.12.0 <3.0.0\"\n".data⟩]

/-- **C3 (amended).** In the `part_007` variant, `detectFlutterVersion`
scans the ZIP for a `pubspec.yaml` manifest (skipping `__MACOSX`), matches
the Dart SDK constraint, and maps it exactly as the claim states
(`>= 3.0 → '3.24.3'`, `>= 2.12 → '3.10.0'`, default `'3.24.3'`); the
`part_004` variant, by contrast, ignores the constraint and returns
`'3.24.3'` for every archive. -/
theorem c3_detectFlutterVersion_mapping :
    (∀ zb : ZipArchive,
      Part007.detectFlutterVersion zb = claimedVersionMapping (dartConstraintOf zb)) ∧
    (∀ zb : ZipArchive, Part004.detectFlutterVersion zb = "3.24.3") := by
  constructor
  · intro zb
    rcases zb with _ | entries
    · rfl
    · simp only [Part007.detectFlutterVersion, dartConstraintOf, dartConstraintNum]
      cases findPubspec entries with
      | none => rfl
      | some entry =>
        dsimp only
        cases sdkCapture entry.content with
        | none => rfl
        | some cap =>
          dsimp only
          cases jsParseFloatNum cap with
          | none => rfl
          | some num => rfl
  · intro zb; rfl

/-- Counterexample to **C3** as stated: on an archive whose manifest pins
`sdk: ">=2.12.0 <3.0.0"`, the claimed mapping requires `'3.10.0'`, but the
`part_004` variant of `detectFlutterVersion` (cited by the claim) returns
`'3.24.3'`. -/
theorem c3_counterexample :
    dartConstraintOf nullSafetyArchive = some ((2.12 : ℚ)) ∧
    claimedVersionMapping (dartConstraintOf nullSafetyArchive) = "3.10.0" ∧
    Part004.detectFlutterVersion nullSafetyArchive = "3.24.3" ∧
    Part004.detectFlutterVersion nullSafetyArchive ≠
      claimedVersionMapping (dartConstraintOf nullSafetyArchive) := by
  have hnum : dartConstraintNum nullSafetyArchive = some ⟨2, 12, 2⟩ := by decide
  have hrat : dartConstraintOf nullSafetyArchive = some ((2.12 : ℚ)) := by
    rw [dartConstraintOf, hnum]
    simp only [Option.map]
    norm_num [JsNumber.toRat]
  have hmap : claimedVersionMapping (dartConstraintOf nullSafetyArchive) = "3.10.0" := by
    rw [hrat, claimedVersionMapping]
    norm_num
  refine ⟨hrat, hmap, rfl, ?_⟩
  rw [hmap]
  decide

/-- **C9.** `detectFlutterVersion` (the `part_007` and `part_010` versions
cited by the claim) is total over arbitrary input buffers: every archive,
including an unreadable one (`none`, the caught error branch) or one with
no manifest, produces a non-empty version string; the error branch yields
the default. -/
theorem c9_detectFlutterVersion_total :
    (∀ zb : ZipArchive, 0 < (Part007.detectFlutterVersion zb).length ∧
      (Part007.detectFlutterVersion zb = "3.24.3" ∨
       Part007.detectFlutterVersion zb = "3.10.0")) ∧
    (∀ zb : ZipArchive, 0 < (Part010.detectFlutterVersion zb).length) ∧
    Part007.detectFlutterVersion none = "3.24.3" ∧
    Part010.detectFlutterVersion none = "3.24.0" := by
  refine ⟨?_, ?_, rfl, rfl⟩
  · intro zb
    rcases zb with _ | entries
    · decide
    · simp only [Part007.detectFlutterVersion]
      cases findPubspec entries with
      | none => decide
      | some entry =>
        dsimp only
        cases sdkCapture entry.content with
        | none => decide
        | some cap =>
          dsimp only
          cases jsParseFloatNum cap with
          | none => decide
          | some num =>
            dsimp only
            by_cases h3 : (3.0 : ℚ) ≤ num.toRat
            · simp only [h3, if_pos]; decide
            · by_cases h2 : (2.12 : ℚ) ≤ num.toRat
              · simp only [h3, h2, if_pos, if_neg]; decide
              · simp only [h3, h2, if_neg]; decide
  · intro zb
    rcases zb with _ | entries
    · decide
    · simp only [Part010.detectFlutterVersion]
      cases findPubspec entries with
      | none => decide
      | some entry =>
        dsimp only
        cases sdkCapture entry.content with
        | none => decide
        | some cap =>
          dsimp only
          cases jsParseFloatNum cap with
          | none => decide
          | some num =>
            dsimp only
            by_cases h35 : (3.5 : ℚ) ≤ num.toRat
            · simp only [h35, if_pos]; decide
            · by_cases h33 : (3.3 : ℚ) ≤ num.toRat
              · simp only [h35, h33, if_pos, if_neg]; decide
              · by_cases h30 : (3.0 : ℚ) ≤ num.toRat
                · simp only [h35, h33, h30, if_pos, if_neg]; decide
                · by_cases h21 : (2.12 : ℚ) ≤ num.toRat
                  · simp only [h35, h33, h30, h21, if_pos, if_neg]; decide
                  · simp only [h35, h33, h30, h21, if_neg]; decide

-- =============================================================================
-- part_002: rebuilding a ZIP from loose project files
-- =============================================================================

/-- One loose uploaded file in the `/build-web2apk` handler of
`src/unnamed/part_002`: its multipart `originalname` (the relative path
preserved by `preservePath: true`) and the bytes read back from disk. -/
structure LooseFile where
  originalname : List Char
  content : List Char
deriving DecidableEq

/-- `entryName.replace(/^\//, '')`: remove a single leading forward slash
when present (the regex is not global and is anchored). -/
def stripLeadingSlash : List Char → List Char
  | '/' :: r => r
  | l => l

/-- `entryName.replace(/\\/g, '/')`: normalize every backslash to a
forward slash. -/
def normalizeSeps (l : List Char) : List Char :=
  l.map (fun c => if c = Char.ofNat 92 then '/' else c)

/-- The entry-name computation of the `zip.addFile` loop in
`src/unnamed/part_002` lines 340-355: take `file.originalname`, strip one
leading slash, then normalize separators (in that order). -/
def zipEntryNameOf (originalname : List Char) : List Char :=
  normalizeSeps (stripLeadingSlash originalname)

/-- The ZIP produced by the loop: one `zip.addFile(entryName, fileBuffer)`
per uploaded file, in upload order (`AdmZip.addFile` is modelled as
appending an entry). -/
def buildProjectZip (files : List LooseFile) : List ZipEntry :=
  files.map (fun f => ⟨zipEntryNameOf f.originalname, f.content⟩)

theorem buildProjectZip_length (files : List LooseFile) :
    (buildProjectZip files).length = files.length := by
  simp [buildProjectZip]

/-- **C6.** When loose files are uploaded, the reconstructed archive has
exactly one entry per uploaded file; each entry's name is that file's
original relative path with a leading slash removed and backslash
separators normalized to forward slashes (after which no backslash
remains), and each entry carries that file's content. -/
theorem c6_zip_preserves_structure :
    (∀ files : List LooseFile, (buildProjectZip files).length = files.length) ∧
    (∀ files : List LooseFile, ∀ i : Fin files.length,
      (buildProjectZip files).get (Fin.cast (buildProjectZip_length files).symm i) =
        ⟨zipEntryNameOf ((files.get i).originalname), (files.get i).content⟩) ∧
    (∀ name : List Char, ∀ c ∈ zipEntryNameOf name, c ≠ Char.ofNat 92) := by
  refine ⟨buildProjectZip_length, ?_, ?_⟩
  · intro files i
    simp [buildProjectZip]
  · intro name c hc
    rcases List.mem_map.mp hc with ⟨a, _, ha⟩
    subst ha
    by_cases h : a = Char.ofNat 92
    · rw [if_pos h]; decide
    · rw [if_neg h]; exact h

/-- Witness for **C6** at a concrete two-file upload containing a leading
slash and Windows separators. -/
theorem c6_witness :
    (buildProjectZip [⟨"/index.html".data, "a".data⟩,
        ⟨"assets\\img\\logo.png".data, "b".data⟩]).length = 2 ∧
    (buildProjectZip [⟨"/index.html".data, "a".data⟩,
        ⟨"assets\\img\\logo.png".data, "b".data⟩]).get
      (Fin.cast (buildProjectZip_length _).symm ⟨1, by decide⟩) =
      ⟨"assets/img/logo.png".data, "b".data⟩ ∧
    's' ≠ Char.ofNat 92 := by
  refine ⟨?_, ?_, ?_⟩
  · exact c6_zip_preserves_structure.1 _
  · have h := c6_zip_preserves_structure.2.1
      [⟨"/index.html".data, "a".data⟩, ⟨"assets\\img\\logo.png".data, "b".data⟩] ⟨1, by decide⟩
    rw [h]
    decide
  · exact c6_zip_preserves_structure.2.2 "assets\\img\\logo.png".data 's' (by decide)

-- =============================================================================
-- JSON values, HTTP responses, and handler step traces
-- =============================================================================

/-- A JSON value (the shape of request/response bodies and upstream
payloads built by the handlers). -/
inductive Json where
  | null
  | bool (b : Bool)
  | num (n : Int)
  | str (s : String)
  | arr (xs : List Json)
  | obj (fields : List (String × Json))

/-- First field with the given key. -/
def lookupField (k : String) : List (String × Json) → Option Json
  | [] => none
  | (k2, v) :: rest => if k2 = k then some v else lookupField k rest

/-- Key lookup on a JSON object. -/
def Json.lookup (k : String) : Json → Option Json
  | .obj fields => lookupField k fields
  | _ => none

/-- JavaScript truthiness of an optional value (for `if (details)`). -/
def jsonTruthy : Option Json → Bool
  | none => false
  | some .null => false
  | some (.bool b) => b
  | some (.num n) => !(n = 0)
  | some (.str s) => !(s = "")
  | some (.arr _) => true
  | some (.obj _) => true

/-- An HTTP response: status code plus JSON body. -/
structure HttpResponse where
  status : Nat
  body : Json

/-- One externally visible step of a handler run, in chronological order:
an upstream call (a Cloudinary upload or the GitHub repository-dispatch
POST), a `cleanupTemp` invocation, or sending the HTTP response. -/
inductive Step where
  | uploadIcon (options : Json)
  | uploadZip (options : Json)
  | dispatch (url : String) (payload : Json)
  | cleanup
  | respond (r : HttpResponse)

/-- Is this step an upstream call? -/
def Step.isUpstreamCall : Step → Bool
  | .uploadIcon _ => true
  | .uploadZip _ => true
  | .dispatch _ _ => true
  | _ => false

/-- Is this step the HTTP response? -/
def Step.isRespond : Step → Bool
  | .respond _ => true
  | _ => false

/-- The upstream calls of a trace, in order. -/
def callsOf (t : List Step) : List Step := t.filter Step.isUpstreamCall

/-- The first (and in these handlers only) response of a trace. -/
def firstResponse : List Step → Option HttpResponse
  | [] => none
  | .respond r :: _ => some r
  | _ :: rest => firstResponse rest

/-- Accumulator pass: every `respond` must be preceded by a `cleanup`. -/
def cleanupCovers : Bool → List Step → Bool
  | _, [] => true
  | _, .cleanup :: rest => cleanupCovers true rest
  | seen, .respond _ :: rest => seen && cleanupCovers seen rest
  | seen, _ :: rest => cleanupCovers seen rest

/-- Every response in the trace happens after a `cleanupTemp` call. -/
def cleanupBeforeRespond (t : List Step) : Bool := cleanupCovers false t

/-- Number of responses sent in a trace. -/
def respondCount (t : List Step) : Nat := (t.filter Step.isRespond).length

/-- The kind of an upstream call, with payloads erased (for ordering and
multiplicity statements). -/
inductive CallKind where
  | uploadA
  | uploadB
  | dispatchCall
deriving DecidableEq

/-- Classify a step as an upstream call kind. -/
def Step.callKind : Step → Option CallKind
  | .uploadIcon _ => some .uploadA
  | .uploadZip _ => some .uploadB
  | .dispatch _ _ => some .dispatchCall
  | _ => none

/-- The upstream call kinds of a trace, in order. -/
def callKinds (t : List Step) : List CallKind := t.filterMap Step.callKind

-- =============================================================================
-- server.js: shared helper shapes
-- =============================================================================

/-- Truthiness of an optional string environment/body field (`!x` is true
for both a missing field and an empty string). -/
def truthy (o : Option String) : Bool := !(o.getD "" = "")

/-- ASCII letter (the regex class `[a-zA-Z]`). -/
def isAsciiLetter (c : Char) : Bool :=
  (97 ≤ c.toNat && c.toNat ≤ 122) || (65 ≤ c.toNat && c.toNat ≤ 90)

/-- Membership in the regex class `[a-zA-Z0-9_\.]`. -/
def isPkgChar (c : Char) : Bool :=
  isAsciiLetter c || (48 ≤ c.toNat && c.toNat ≤ 57) || c = '_' || c = '.'

/-- `isValidPackageName` from `server.js` lines 145-147:
`/^[a-zA-Z][a-zA-Z0-9_\.]*$/.test(pkg)`. -/
def isValidPackageName (pkg : String) : Bool :=
  match pkg.data with
  | [] => false
  | c :: rest => isAsciiLetter c && rest.all isPkgChar

/-- One uploaded multipart file as multer hands it to the handler. -/
structure FileUpload where
  originalname : String
  size : Nat

/-- The text fields of the `/build-flutter` request body. -/
structure BuildReqBody where
  appName : Option String
  packageName : Option String
  flutterVersion : Option String
  buildMode : Option String

/-- `req.files` for the two expected fields. -/
structure BuildFiles where
  icon : Option FileUpload
  projectZip : Option FileUpload

/-- The GitHub environment variables. -/
structure GhEnv where
  owner : Option String
  repo : Option String
  token : Option String

/-- What a successful Cloudinary upload returns (the only field read). -/
structure CloudinaryResult where
  secure_url : String

/-- Upstream oracle for one `/build-flutter` run: what each Cloudinary
upload and the GitHub dispatch would produce. `Except.error` models the
promise rejecting (for the dispatch, `axios` throwing despite
`validateStatus: null`, e.g. a network error); `dispatchResult.ok` carries
the resolved HTTP status. -/
structure BuildUpstream where
  iconResult : Except String CloudinaryResult
  zipResult : Except String CloudinaryResult
  dispatchResult : Except String Nat
  dispatchBody : String

/-- Per-request generated values: `generateBuildId()` and
`new Date().toISOString()`. -/
structure ReqCtx where
  requestId : String
  now : String

namespace ServerJs

/-- `CONFIG.MAX_ICON_SIZE` (10 MB). -/
def MAX_ICON_SIZE : Nat := 10 * 1024 * 1024

/-- `formatFileSize` from `server.js` lines 162-167, with the float
computation idealized over `Nat` (`Math.floor(Math.log b / Math.log 1024)`
becomes `Nat.log 1024 b`, `toFixed(2)` becomes half-up rounding to two
decimals); no claim depends on the digits. -/
def formatFileSize (bytes : Nat) : String :=
  if bytes = 0 then "0 B"
  else
    let i := Nat.log 1024 bytes
    let scaled := (bytes * 100 + (1024 ^ i) / 2) / 1024 ^ i
    let unit := ["B", "KB", "MB", "GB"].getD i "undefined"
    toString (scaled / 100) ++ "." ++
      (if scaled % 100 < 10 then "0" else "") ++ toString (scaled % 100) ++ " " ++ unit

/-- `makeErrorResponse` from `server.js` lines 203-212. -/
def makeErrorResponse (code msg : String) (details : Option Json) (now : String) : Json :=
  .obj ([("success", .bool false), ("error", .str msg), ("code", .str code),
         ("timestamp", .str now)] ++
        (if jsonTruthy details then [("details", details.getD .null)] else []))

/-- `makeSuccessResponse` from `server.js` lines 217-223. -/
def makeSuccessResponse (data : List (String × Json)) (now : String) : Json :=
  .obj ([("success", .bool true), ("timestamp", .str now)] ++ data)

/-- The Cloudinary options of the icon upload (`server.js` lines 423-432). -/
def iconUploadOptions (packageName requestId : String) : Json :=
  .obj [
    ("folder", .str "aite_studio/icons"),
    ("public_id", .str (sanitizeFilename packageName ++ "_icon_" ++ requestId)),
    ("resource_type", .str "image"),
    ("overwrite", .bool true),
    ("transformation", .arr [
      .obj [("width", .num 512), ("height", .num 512), ("crop", .str "fill")],
      .obj [("quality", .str "auto:good"), ("fetch_format", .str "png")]])]

/-- The Cloudinary options of the archive upload (`server.js` lines
451-467; identical in the streaming and buffer branches). -/
def zipUploadOptions (packageName requestId : String) : Json :=
  .obj [
    ("folder", .str "aite_studio/projects"),
    ("public_id", .str (sanitizeFilename packageName ++ "_source_" ++ requestId)),
    ("resource_type", .str "raw"),
    ("overwrite", .bool true)]

/-- The `client_payload` object of `githubPayload` (`server.js` lines
487-498). -/
def clientPayload (appName packageName iconUrl zipUrl requestId now : String)
    (flutterVersion buildMode : Option String) (fileSize : Nat) : Json :=
  .obj [
    ("app_name", .str (sanitizeFilename appName)),
    ("display_name", .str appName),
    ("package_name", .str packageName),
    ("icon_url", .str iconUrl),
    ("zip_url", .str zipUrl),
    ("request_id", .str requestId),
    ("flutter_version", .str (if truthy flutterVersion then
      flutterVersion.getD "" else "stable")),
    ("build_mode", .str (if truthy buildMode then buildMode.getD "" else "release")),
    ("file_size", .num (fileSize : Int)),
    ("timestamp", .str now)]

/-- `githubPayload` from `server.js` lines 485-499. -/
def githubPayload (appName packageName iconUrl zipUrl requestId now : String)
    (flutterVersion buildMode : Option String) (fileSize : Nat) : Json :=
  .obj [
    ("event_type", .str "build-flutter"),
    ("client_payload", clientPayload appName packageName iconUrl zipUrl requestId now
      flutterVersion buildMode fileSize)]

/-- The `POST /build-flutter` handler of `server.js` (lines 349-553) as a
step trace.  Control flow follows the source exactly: environment check,
field check, package-name check, file check, icon-size check, icon upload,
ZIP upload (the over-50MB branch performs the same single upload call with
identical options, so it is one `uploadZip` step either way), GitHub
repository-dispatch, and the final response; every return path runs
`cleanupTemp` first, and thrown upstream errors land in the catch-all
(`SERVER_ERROR`). -/
def buildFlutter (ctx : ReqCtx) (env : GhEnv) (body : BuildReqBody)
    (files : BuildFiles) (up : BuildUpstream) : List Step :=
  if !(truthy env.owner && truthy env.repo && truthy env.token) then
    [.cleanup, .respond ⟨500, makeErrorResponse "MISSING_ENV"
      "Server misconfigured: missing GitHub repo/token environment variables" none ctx.now⟩]
  else if !(truthy body.appName && truthy body.packageName) then
    [.cleanup, .respond ⟨400, makeErrorResponse "MISSING_FIELDS"
      "appName and packageName are required" none ctx.now⟩]
  else if !(isValidPackageName (body.packageName.getD "")) then
    [.cleanup, .respond ⟨400, makeErrorResponse "INVALID_PACKAGE"
      "Invalid package name format. Must start with a letter and contain only letters, numbers, underscores, and dots."
      none ctx.now⟩]
  else
    match files.icon, files.projectZip with
    | none, _ =>
      [.cleanup, .respond ⟨400, makeErrorResponse "MISSING_FILES"
        "Both icon and projectZip files are required" none ctx.now⟩]
    | some _, none =>
      [.cleanup, .respond ⟨400, makeErrorResponse "MISSING_FILES"
        "Both icon and projectZip files are required" none ctx.now⟩]
    | some iconFile, some zipFile =>
      if MAX_ICON_SIZE < iconFile.size then
        [.cleanup, .respond ⟨400, makeErrorResponse "ICON_TOO_LARGE"
          ("Icon file too large. Maximum size is " ++ formatFileSize MAX_ICON_SIZE)
          none ctx.now⟩]
      else
        let safeAppName := sanitizeFilename (body.appName.getD "")
        .uploadIcon (iconUploadOptions (body.packageName.getD "") ctx.requestId) ::
        match up.iconResult with
        | .error e =>
          [.cleanup, .respond ⟨500, makeErrorResponse "CLOUDINARY_ICON_FAIL"
            "Failed to upload icon" (some (.str e)) ctx.now⟩]
        | .ok iconUpload =>
          .uploadZip (zipUploadOptions (body.packageName.getD "") ctx.requestId) ::
          match up.zipResult with
          | .error e =>
            [.cleanup, .respond ⟨500, makeErrorResponse "CLOUDINARY_ZIP_FAIL"
              "Failed to upload project ZIP" (some (.str e)) ctx.now⟩]
          | .ok zipUpload =>
            .dispatch ("https://api.github.com/repos/" ++ env.owner.getD "" ++ "/" ++
                env.repo.getD "" ++ "/dispatches")
              (githubPayload (body.appName.getD "") (body.packageName.getD "")
                iconUpload.secure_url zipUpload.secure_url ctx.requestId ctx.now
                body.flutterVersion body.buildMode zipFile.size) ::
            match up.dispatchResult with
            | .error e =>
              [.cleanup, .respond ⟨500, makeErrorResponse "SERVER_ERROR"
                "Unexpected server error" (some (.str e)) ctx.now⟩]
            | .ok status =>
              if 200 ≤ status && status < 300 then
                [.cleanup, .respond ⟨200, makeSuccessResponse [
                  ("build_id", .str ctx.requestId),
                  ("safe_app_name", .str safeAppName),
                  ("app_name", .str (body.appName.getD "")),
                  ("package_name", .str (body.packageName.getD "")),
                  ("icon_url", .str iconUpload.secure_url),
                  ("zip_url", .str zipUpload.secure_url),
                  ("file_size", .str (formatFileSize zipFile.size)),
                  ("message", .str "Build initiated successfully"),
                  ("check_status_url", .str ("/check-status/" ++ ctx.requestId ++
                    "?appName=" ++ safeAppName))] ctx.now⟩]
              else
                [.cleanup, .respond ⟨500, makeErrorResponse "GITHUB_DISPATCH_FAILED"
                  "Failed to dispatch build to GitHub"
                  (some (.obj [("status", .num (status : Int)),
                    ("body", .str (up.dispatchBody.take 500))])) ctx.now⟩]

end ServerJs

-- =============================================================================
-- part_000 and part_004 build handlers
-- =============================================================================

/-- Upstream oracle for the simpler variants: two Cloudinary uploads and a
GitHub dispatch whose promise either resolves (2xx) or rejects. -/
structure SimpleUpstream where
  iconResult : Except String CloudinaryResult
  zipResult : Except String CloudinaryResult
  dispatchResult : Except String Unit

namespace Part000

/-- The `POST /build-flutter` handler of `src/unnamed/part_000`
(lines 34-97) as a step trace.  The whole body sits in one `try`: a missing
file throws `Error("Missing files")` and every thrown error is answered
with HTTP 500 and the body `{ success: false, error: error.message }` —
there is no `code` field and no 4xx path.  `appName`/`packageName` are
taken as strings (a request without them would throw a `TypeError` inside
`sanitizeFilename` and land in the same 500 branch).  `nowMs` stands for
the `Date.now()` values used as `request_id` and in the ZIP `public_id`. -/
def buildFlutter (nowMs owner repo : String) (appName packageName : String)
    (files : BuildFiles) (up : SimpleUpstream) : List Step :=
  if files.icon.isNone || files.projectZip.isNone then
    [.respond ⟨500, .obj [("success", .bool false), ("error", .str "Missing files")]⟩]
  else
    .uploadIcon (.obj [("folder", .str "aite_studio/icons")]) ::
    match up.iconResult with
    | .error e => [.respond ⟨500, .obj [("success", .bool false), ("error", .str e)]⟩]
    | .ok iconUpload =>
      .uploadZip (.obj [("resource_type", .str "raw"),
        ("folder", .str "aite_studio/projects"),
        ("public_id", .str (packageName ++ "_source_" ++ nowMs))]) ::
      match up.zipResult with
      | .error e => [.respond ⟨500, .obj [("success", .bool false), ("error", .str e)]⟩]
      | .ok zipUpload =>
        .dispatch ("https://api.github.com/repos/" ++ owner ++ "/" ++ repo ++ "/dispatches")
          (.obj [("event_type", .str "build-flutter"),
            ("client_payload", .obj [
              ("app_name", .str (sanitizeFilename appName)),
              ("display_name", .str appName),
              ("package_name", .str packageName),
              ("icon_url", .str iconUpload.secure_url),
              ("zip_url", .str zipUpload.secure_url),
              ("request_id", .str nowMs)])]) ::
        match up.dispatchResult with
        | .error e => [.respond ⟨500, .obj [("success", .bool false), ("error", .str e)]⟩]
        | .ok _ => [.respond ⟨200, .obj [("success", .bool true),
            ("message", .str "Build initiated"), ("build_id", .str nowMs),
            ("safe_app_name", .str (sanitizeFilename appName))]⟩]

end Part000

namespace Part004

/-- The `POST /build-flutter` handler of `src/unnamed/part_004`
(lines 60-117) as a step trace: file-presence check (the only 400 path),
`detectFlutterVersion` on the uploaded buffer, icon and ZIP uploads, the
repository-dispatch POST, and the success response; every thrown upstream
error is answered 500 by the catch-all. -/
def buildFlutter (nowMs owner repo : String) (appName packageName : Option String)
    (za : ZipArchive) (files : BuildFiles) (up : SimpleUpstream) : List Step :=
  if files.icon.isNone || files.projectZip.isNone then
    [.respond ⟨400, .obj [("error", .str "Missing icon or projectZip file")]⟩]
  else
    let detectedFlutterVersion := detectFlutterVersion za
    .uploadIcon (.obj [("folder", .str "aite_studio/icons"),
      ("resource_type", .str "image")]) ::
    match up.iconResult with
    | .error e => [.respond ⟨500, .obj [("success", .bool false), ("error", .str e)]⟩]
    | .ok iconResult =>
      .uploadZip (.obj [("folder", .str "aite_studio/projects"),
        ("resource_type", .str "raw"),
        ("public_id", .str ((match packageName with
          | some p => p
          | none => "undefined") ++ "_src_" ++ nowMs))]) ::
      match up.zipResult with
      | .error e => [.respond ⟨500, .obj [("success", .bool false), ("error", .str e)]⟩]
      | .ok zipResult =>
        .dispatch ("https://api.github.com/repos/" ++ owner ++ "/" ++ repo ++ "/dispatches")
          (.obj [("event_type", .str "build-flutter"),
            ("client_payload", .obj [
              ("app_name", .str (if truthy appName then
                Part000.sanitizeFilename (appName.getD "") else "app")),
              ("display_name", .str (if truthy appName then appName.getD "" else "My App")),
              ("package_name", .str (if truthy packageName then
                packageName.getD "" else "com.example.app")),
              ("icon_url", .str iconResult.secure_url),
              ("zip_url", .str zipResult.secure_url),
              ("flutter_version", .str detectedFlutterVersion),
              ("request_id", .str nowMs)])]) ::
        match up.dispatchResult with
        | .error e => [.respond ⟨500, .obj [("success", .bool false), ("error", .str e)]⟩]
        | .ok _ => [.respond ⟨200, .obj [("success", .bool true), ("build_id", .str nowMs),
            ("detected_version", .str detectedFlutterVersion)]⟩]

end Part004

-- =============================================================================
-- Pipeline-order and cleanup properties
-- =============================================================================

/-- Did this upstream promise resolve? -/
def exceptOk {ε α : Type} : Except ε α → Bool
  | .ok _ => true
  | .error _ => false

namespace ServerJs

/-- The GitHub environment variables are all set and non-empty. -/
def envOk (env : GhEnv) : Bool :=
  truthy env.owner && truthy env.repo && truthy env.token

/-- The request-level validation of `POST /build-flutter` in `server.js`:
both text fields present, package name well-formed, both files present,
icon within the size limit. -/
def requestValid (body : BuildReqBody) (files : BuildFiles) : Bool :=
  (truthy body.appName && truthy body.packageName) &&
  isValidPackageName (body.packageName.getD "") &&
  (match files.icon, files.projectZip with
   | some iconFile, some _ => !(MAX_ICON_SIZE < iconFile.size)
   | _, _ => false)

end ServerJs

/-- The upstream calls of one run form a prefix of
icon upload → archive upload → repository dispatch. -/
def pipelineCallChain (ks : List CallKind) : Prop :=
  ks = [] ∨ ks = [.uploadA] ∨ ks = [.uploadA, .uploadB] ∨
  ks = [.uploadA, .uploadB, .dispatchCall]

theorem serverjs_pipeline_chain (ctx : ReqCtx) (env : GhEnv) (body : BuildReqBody)
    (files : BuildFiles) (up : BuildUpstream) :
    pipelineCallChain (callKinds (ServerJs.buildFlutter ctx env body files up)) := by
  unfold ServerJs.buildFlutter
  repeat' split
  all_goals simp [pipelineCallChain, callKinds, Step.callKind]

theorem serverjs_dispatch_needs_success (ctx : ReqCtx) (env : GhEnv) (body : BuildReqBody)
    (files : BuildFiles) (up : BuildUpstream)
    (h : CallKind.dispatchCall ∈ callKinds (ServerJs.buildFlutter ctx env body files up)) :
    ServerJs.envOk env = true ∧ ServerJs.requestValid body files = true ∧
    exceptOk up.iconResult = true ∧ exceptOk up.zipResult = true := by
  unfold ServerJs.buildFlutter at h
  repeat' split at h
  all_goals simp [callKinds, Step.callKind] at h
  all_goals simp_all [ServerJs.envOk, ServerJs.requestValid, exceptOk]

theorem part004_pipeline_chain (nowMs owner repo : String) (appName packageName : Option String)
    (za : ZipArchive) (files : BuildFiles) (up : SimpleUpstream) :
    pipelineCallChain (callKinds (Part004.buildFlutter nowMs owner repo appName packageName za files up)) := by
  unfold Part004.buildFlutter
  repeat' split
  all_goals simp [pipelineCallChain, callKinds, Step.callKind]

theorem part004_dispatch_needs_success (nowMs owner repo : String)
    (appName packageName : Option String) (za : ZipArchive)
    (files : BuildFiles) (up : SimpleUpstream)
    (h : CallKind.dispatchCall ∈ callKinds
      (Part004.buildFlutter nowMs owner repo appName packageName za files up)) :
    (files.icon.isSome && files.projectZip.isSome) = true ∧
    exceptOk up.iconResult = true ∧ exceptOk up.zipResult = true := by
  unfold Part004.buildFlutter at h
  repeat' split at h
  all_goals simp [callKinds, Step.callKind] at h
  all_goals simp_all [exceptOk, Option.isSome_iff_ne_none]

/-- **C5.** In the cited build handlers (`server.js` and `part_004`), the
pipeline runs strictly in order: the upstream calls of any run form a
prefix of icon upload → archive upload → repository dispatch, and the
dispatch is only ever reached when validation passed and both uploads
resolved successfully — never after a validation or upload failure. -/
theorem c5_pipeline_strict_order :
    (∀ (ctx : ReqCtx) (env : GhEnv) (body : BuildReqBody) (files : BuildFiles)
        (up : BuildUpstream),
      pipelineCallChain (callKinds (ServerJs.buildFlutter ctx env body files up)) ∧
      (CallKind.dispatchCall ∈ callKinds (ServerJs.buildFlutter ctx env body files up) →
        ServerJs.envOk env = true ∧ ServerJs.requestValid body files = true ∧
        exceptOk up.iconResult = true ∧ exceptOk up.zipResult = true)) ∧
    (∀ (nowMs owner repo : String) (appName packageName : Option String)
        (za : ZipArchive) (files : BuildFiles) (up : SimpleUpstream),
      pipelineCallChain (callKinds
        (Part004.buildFlutter nowMs owner repo appName packageName za files up)) ∧
      (CallKind.dispatchCall ∈ callKinds
          (Part004.buildFlutter nowMs owner repo appName packageName za files up) →
        (files.icon.isSome && files.projectZip.isSome) = true ∧
        exceptOk up.iconResult = true ∧ exceptOk up.zipResult = true)) := by
  constructor
  · intro ctx env body files up
    exact ⟨serverjs_pipeline_chain ctx env body files up,
           serverjs_dispatch_needs_success ctx env body files up⟩
  · intro nowMs owner repo appName packageName za files up
    exact ⟨part004_pipeline_chain nowMs owner repo appName packageName za files up,
           part004_dispatch_needs_success nowMs owner repo appName packageName za files up⟩

/-- Witness for **C5**: a fully valid request with successful uploads does
reach the dispatch, and the premises of the order statement hold there. -/
theorem c5_witness :
    pipelineCallChain (callKinds (ServerJs.buildFlutter ⟨"r1", "t0"⟩
      ⟨some "o", some "r", some "tok"⟩
      ⟨some "My App", some "com.example.app", none, none⟩
      ⟨some ⟨"icon.png", 100⟩, some ⟨"app.zip", 1000⟩⟩
      ⟨.ok ⟨"iconUrl"⟩, .ok ⟨"zipUrl"⟩, .ok 204, ""⟩)) ∧
    ServerJs.envOk ⟨some "o", some "r", some "tok"⟩ = true ∧
    ServerJs.requestValid ⟨some "My App", some "com.example.app", none, none⟩
      ⟨some ⟨"icon.png", 100⟩, some ⟨"app.zip", 1000⟩⟩ = true := by
  have h := c5_pipeline_strict_order.1 ⟨"r1", "t0"⟩
    ⟨some "o", some "r", some "tok"⟩
    ⟨some "My App", some "com.example.app", none, none⟩
    ⟨some ⟨"icon.png", 100⟩, some ⟨"app.zip", 1000⟩⟩
    ⟨.ok ⟨"iconUrl"⟩, .ok ⟨"zipUrl"⟩, .ok 204, ""⟩
  refine ⟨h.1, ?_, ?_⟩
  · exact (h.2 (by decide)).1
  · exact (h.2 (by decide)).2.1

/-- **C10.** On every response path of the `POST /build-flutter` handler in
`server.js` — success, each 4xx validation rejection, each 5xx
upstream-failure rejection, and the catch-all branch — `cleanupTemp` runs
before the response is sent, and exactly one response is sent. -/
theorem c10_cleanup_before_response (ctx : ReqCtx) (env : GhEnv) (body : BuildReqBody)
    (files : BuildFiles) (up : BuildUpstream) :
    cleanupBeforeRespond (ServerJs.buildFlutter ctx env body files up) = true ∧
    respondCount (ServerJs.buildFlutter ctx env body files up) = 1 := by
  unfold ServerJs.buildFlutter
  repeat' split
  all_goals simp [cleanupBeforeRespond, cleanupCovers, respondCount, Step.isRespond]

/-- **C1.** For every valid build request (appName and packageName present,
packageName valid, both files present, icon within the size limit) whose
uploads succeed, the `POST /build-flutter` handler of `server.js` makes
exactly the two kinds of upstream calls with the expected payloads: the
icon and archive uploads to Cloudinary, and one repository-dispatch POST
whose body has `event_type 'build-flutter'` and a `client_payload`
containing the sanitized `app_name`, the display name, the `package_name`,
the two upload URLs and the generated `request_id`. -/
theorem c1_valid_request_dispatch_payloads
    (ctx : ReqCtx) (owner repo token : String) (appName packageName : String)
    (fv bm : Option String) (iconFile zipFile : FileUpload)
    (iconUrl zipUrl : String) (dres : Except String Nat) (dbody : String)
    (hOwner : owner ≠ "") (hRepo : repo ≠ "") (hToken : token ≠ "")
    (hApp : appName ≠ "") (hPkgNonempty : packageName ≠ "")
    (hPkgValid : isValidPackageName packageName = true)
    (hSize : iconFile.size ≤ ServerJs.MAX_ICON_SIZE) :
    callsOf (ServerJs.buildFlutter ctx ⟨some owner, some repo, some token⟩
        ⟨some appName, some packageName, fv, bm⟩
        ⟨some iconFile, some zipFile⟩
        ⟨.ok ⟨iconUrl⟩, .ok ⟨zipUrl⟩, dres, dbody⟩) =
      [.uploadIcon (ServerJs.iconUploadOptions packageName ctx.requestId),
       .uploadZip (ServerJs.zipUploadOptions packageName ctx.requestId),
       .dispatch ("https://api.github.com/repos/" ++ owner ++ "/" ++ repo ++ "/dispatches")
         (ServerJs.githubPayload appName packageName iconUrl zipUrl ctx.requestId ctx.now
           fv bm zipFile.size)] ∧
    (ServerJs.githubPayload appName packageName iconUrl zipUrl ctx.requestId ctx.now
        fv bm zipFile.size).lookup "event_type" = some (.str "build-flutter") ∧
    ∃ cp, (ServerJs.githubPayload appName packageName iconUrl zipUrl ctx.requestId ctx.now
        fv bm zipFile.size).lookup "client_payload" = some cp ∧
      cp.lookup "app_name" = some (.str (ServerJs.sanitizeFilename appName)) ∧
      cp.lookup "display_name" = some (.str appName) ∧
      cp.lookup "package_name" = some (.str packageName) ∧
      cp.lookup "icon_url" = some (.str iconUrl) ∧
      cp.lookup "zip_url" = some (.str zipUrl) ∧
      cp.lookup "request_id" = some (.str ctx.requestId) := by
  refine ⟨?_, ?_, ?_⟩
  · unfold ServerJs.buildFlutter
    rw [if_neg (by simp [truthy, hOwner, hRepo, hToken])]
    rw [if_neg (by simp [truthy, hApp, hPkgNonempty])]
    rw [if_neg (by simp [hPkgValid])]
    dsimp only
    rw [if_neg (by omega)]
    rcases dres with e | status
    · simp [callsOf, Step.isUpstreamCall]
    · dsimp only
      by_cases hs : (200 ≤ status && status < 300) = true
      · rw [if_pos hs]; simp [callsOf, Step.isUpstreamCall]
      · rw [if_neg hs]; simp [callsOf, Step.isUpstreamCall]
  · simp [ServerJs.githubPayload, Json.lookup, lookupField]
  · refine ⟨ServerJs.clientPayload appName packageName iconUrl zipUrl ctx.requestId ctx.now
      fv bm zipFile.size, ?_, ?_, ?_, ?_, ?_, ?_, ?_⟩ <;>
      simp [ServerJs.githubPayload, ServerJs.clientPayload, Json.lookup, lookupField]

/-- Witness for **C1** at a concrete valid request. -/
theorem c1_witness :
    callsOf (ServerJs.buildFlutter ⟨"r1", "t0"⟩
        ⟨some "o", some "r", some "tok"⟩
        ⟨some "My App", some "com.example.app", none, none⟩
        ⟨some ⟨"icon.png", 100⟩, some ⟨"app.zip", 1000⟩⟩
        ⟨.ok ⟨"iconUrl"⟩, .ok ⟨"zipUrl"⟩, .ok 204, ""⟩) =
      [.uploadIcon (ServerJs.iconUploadOptions "com.example.app" "r1"),
       .uploadZip (ServerJs.zipUploadOptions "com.example.app" "r1"),
       .dispatch "https://api.github.com/repos/o/r/dispatches"
         (ServerJs.githubPayload "My App" "com.example.app" "iconUrl" "zipUrl" "r1" "t0"
           none none 1000)] := by
  have h := c1_valid_request_dispatch_payloads ⟨"r1", "t0"⟩ "o" "r" "tok"
    "My App" "com.example.app" none none ⟨"icon.png", 100⟩ ⟨"app.zip", 1000⟩
    "iconUrl" "zipUrl" (.ok 204) ""
    (by decide) (by decide) (by decide) (by decide) (by decide) (by decide)
    (by norm_num [ServerJs.MAX_ICON_SIZE])
  exact h.1

-- =============================================================================
-- Error statuses and error bodies (C2)
-- =============================================================================

theorem append_ne_empty_left {s t : String} (h : s.length ≠ 0) : s ++ t ≠ "" := by
  intro hc
  have h2 : (s ++ t).length = 0 := by rw [hc]; rfl
  rw [String.length_append] at h2
  omega

/-- The error body carries both a non-empty `code` and a non-empty message
(under the `error` key, where `makeErrorResponse` puts it). -/
def hasCodeAndMessage (j : Json) : Bool :=
  (match j.lookup "code" with | some (.str c) => !(c = "") | _ => false) &&
  (match j.lookup "error" with | some (.str m) => !(m = "") | _ => false)

/-- Did the repository-dispatch step fail (promise rejected, or resolved
with a non-2xx status)? -/
def dispatchFailed (up : BuildUpstream) : Bool :=
  match up.dispatchResult with
  | .error _ => true
  | .ok s => !(200 ≤ s && s < 300)

theorem serverjs_response_wellformed (ctx : ReqCtx) (env : GhEnv) (body : BuildReqBody)
    (files : BuildFiles) (up : BuildUpstream) (r : HttpResponse)
    (h : firstResponse (ServerJs.buildFlutter ctx env body files up) = some r) :
    r.status = 200 ∨ (400 ≤ r.status ∧ r.status ≤ 500 ∧ hasCodeAndMessage r.body = true) := by
  unfold ServerJs.buildFlutter at h
  repeat' split at h
  all_goals simp [firstResponse] at h
  all_goals subst h
  all_goals simp [hasCodeAndMessage, ServerJs.makeErrorResponse, Json.lookup, lookupField]
  all_goals exact append_ne_empty_left (by decide)

theorem serverjs_validation_gives_400 (ctx : ReqCtx) (env : GhEnv) (body : BuildReqBody)
    (files : BuildFiles) (up : BuildUpstream) (r : HttpResponse)
    (h : firstResponse (ServerJs.buildFlutter ctx env body files up) = some r)
    (henv : ServerJs.envOk env = true)
    (hval : ServerJs.requestValid body files = false) :
    r.status = 400 := by
  unfold ServerJs.buildFlutter at h
  repeat' split at h
  all_goals simp [firstResponse] at h
  all_goals try subst h
  all_goals simp_all [ServerJs.envOk, ServerJs.requestValid, truthy]

theorem serverjs_upstream_gives_500 (ctx : ReqCtx) (env : GhEnv) (body : BuildReqBody)
    (files : BuildFiles) (up : BuildUpstream) (r : HttpResponse)
    (h : firstResponse (ServerJs.buildFlutter ctx env body files up) = some r)
    (henv : ServerJs.envOk env = true)
    (hval : ServerJs.requestValid body files = true)
    (hup : exceptOk up.iconResult = false ∨ exceptOk up.zipResult = false ∨
      dispatchFailed up = true) :
    r.status = 500 := by
  unfold ServerJs.buildFlutter at h
  repeat' split at h
  all_goals simp [firstResponse] at h
  all_goals try subst h
  all_goals simp_all [ServerJs.envOk, ServerJs.requestValid, truthy, exceptOk, dispatchFailed]

theorem part000_errors_are_500_without_code (nowMs owner repo appName packageName : String)
    (files : BuildFiles) (up : SimpleUpstream) (r : HttpResponse)
    (h : firstResponse (Part000.buildFlutter nowMs owner repo appName packageName files up)
      = some r) :
    r.status = 200 ∨ (r.status = 500 ∧ r.body.lookup "code" = none) := by
  unfold Part000.buildFlutter at h
  repeat' split at h
  all_goals simp [firstResponse] at h
  all_goals subst h
  all_goals simp [Json.lookup, lookupField]

/-- **C2 (amended).** In `server.js`, every `POST /build-flutter` response
is either the success response or an error whose status lies in 400-500 and
whose JSON body carries both a code and a message; with the environment
configured, every validation failure (missing/invalid field or file) is
answered 400 and every upstream (Cloudinary or GitHub) failure is answered
500.  In the `part_000` variant, by contrast, every failure — including a
missing required file — is answered 500, with a body that carries only a
message and no code. -/
theorem c2_error_handling :
    (∀ (ctx : ReqCtx) (env : GhEnv) (body : BuildReqBody) (files : BuildFiles)
        (up : BuildUpstream) (r : HttpResponse),
      firstResponse (ServerJs.buildFlutter ctx env body files up) = some r →
      (r.status = 200 ∨ (400 ≤ r.status ∧ r.status ≤ 500 ∧ hasCodeAndMessage r.body = true)) ∧
      (ServerJs.envOk env = true → ServerJs.requestValid body files = false →
        r.status = 400) ∧
      (ServerJs.envOk env = true → ServerJs.requestValid body files = true →
        (exceptOk up.iconResult = false ∨ exceptOk up.zipResult = false ∨
          dispatchFailed up = true) →
        r.status = 500)) ∧
    (∀ (nowMs owner repo appName packageName : String) (files : BuildFiles)
        (up : SimpleUpstream) (r : HttpResponse),
      firstResponse (Part000.buildFlutter nowMs owner repo appName packageName files up)
        = some r →
      r.status = 200 ∨ (r.status = 500 ∧ r.body.lookup "code" = none)) := by
  constructor
  · intro ctx env body files up r h
    exact ⟨serverjs_response_wellformed ctx env body files up r h,
      fun henv hval => serverjs_validation_gives_400 ctx env body files up r h henv hval,
      fun henv hval hup => serverjs_upstream_gives_500 ctx env body files up r h henv hval hup⟩
  · exact part000_errors_are_500_without_code

/-- Counterexample to **C2** as stated: a request to `part_000`'s
`/build-flutter` with both files missing is answered with HTTP 500 (not a
4xx status) and a JSON body with no `code` member. -/
theorem c2_counterexample :
    (firstResponse (Part000.buildFlutter "123" "o" "r" "My App" "com.example.app"
        ⟨none, none⟩ ⟨.ok ⟨"iu"⟩, .ok ⟨"zu"⟩, .ok ()⟩)).map (fun r => r.status) = some 500 ∧
    (firstResponse (Part000.buildFlutter "123" "o" "r" "My App" "com.example.app"
        ⟨none, none⟩ ⟨.ok ⟨"iu"⟩, .ok ⟨"zu"⟩, .ok ()⟩)).map
      (fun r => (r.body.lookup "code").isSome) = some false := by
  constructor <;> rfl

/-- Witness for **C2** at concrete inputs: a missing-field request to the
`server.js` handler is answered 400, and a failed icon upload on a valid
request is answered 500. -/
theorem c2_witness :
    (firstResponse (ServerJs.buildFlutter ⟨"r1", "t0"⟩
        ⟨some "o", some "r", some "tok"⟩ ⟨none, some "com.example.app", none, none⟩
        ⟨some ⟨"i.png", 10⟩, some ⟨"a.zip", 20⟩⟩
        ⟨.ok ⟨"iu"⟩, .ok ⟨"zu"⟩, .ok 204, ""⟩)).map (fun r => r.status) = some 400 ∧
    (firstResponse (ServerJs.buildFlutter ⟨"r1", "t0"⟩
        ⟨some "o", some "r", some "tok"⟩ ⟨some "My App", some "com.example.app", none, none⟩
        ⟨some ⟨"i.png", 10⟩, some ⟨"a.zip", 20⟩⟩
        ⟨.error "network", .ok ⟨"zu"⟩, .ok 204, ""⟩)).map (fun r => r.status) = some 500 := by
  constructor
  · obtain ⟨r, hr⟩ : ∃ r, firstResponse (ServerJs.buildFlutter ⟨"r1", "t0"⟩
        ⟨some "o", some "r", some "tok"⟩ ⟨none, some "com.example.app", none, none⟩
        ⟨some ⟨"i.png", 10⟩, some ⟨"a.zip", 20⟩⟩
        ⟨.ok ⟨"iu"⟩, .ok ⟨"zu"⟩, .ok 204, ""⟩) = some r := ⟨_, rfl⟩
    have hs := ((c2_error_handling.1 _ _ _ _ _ r hr).2.1) (by decide) (by decide)
    rw [hr]
    simp [Option.map, hs]
  · obtain ⟨r, hr⟩ : ∃ r, firstResponse (ServerJs.buildFlutter ⟨"r1", "t0"⟩
        ⟨some "o", some "r", some "tok"⟩ ⟨some "My App", some "com.example.app", none, none⟩
        ⟨some ⟨"i.png", 10⟩, some ⟨"a.zip", 20⟩⟩
        ⟨.error "network", .ok ⟨"zu"⟩, .ok 204, ""⟩) = some r := ⟨_, rfl⟩
    have hs := ((c2_error_handling.1 _ _ _ _ _ r hr).2.2) (by decide) (by decide)
      (Or.inl (by decide))
    rw [hr]
    simp [Option.map, hs]

-- =============================================================================
-- Status-check endpoints (C4)
-- =============================================================================

/-- Substring containment on strings (JS `String.prototype.includes`). -/
def containsSubStr (needle hay : String) : Bool := containsSub needle.data hay.data

/-- One GitHub Actions workflow run, with the fields the status endpoints
read (`conclusion` is `null` until the run completes). -/
structure WorkflowRun where
  display_title : Option String
  head_commit_message : Option String
  status : String
  conclusion : Option String
  html_url : String
  updated_at : String
deriving DecidableEq

/-- One release asset. -/
structure ReleaseAsset where
  name : String
  browser_download_url : String
deriving DecidableEq

/-- Upstream oracle for the `server.js` status endpoint: the workflow-runs
query (throws, or returns the run list) and the release-by-tag query
(throws, or — under `validateStatus: null` — resolves with an HTTP status
and the asset list). -/
structure StatusUpstream where
  runsResult : Except String (List WorkflowRun)
  releaseResult : Except String (Nat × List ReleaseAsset)

/-- The run-matching search of `server.js` lines 691-694:
`runs.find(r => r.display_title?.includes(buildId) ||
r.head_commit?.message?.includes(buildId))`. -/
def findRun (buildId : String) (runs : List WorkflowRun) : Option WorkflowRun :=
  runs.find? (fun r =>
    (match r.display_title with
     | some t => containsSubStr buildId t
     | none => false) ||
    (match r.head_commit_message with
     | some m => containsSubStr buildId m
     | none => false))

namespace ServerJs

/-- The success-and-release sub-branch of the status handler
(`server.js` lines 700-726): when the matching run completed successfully,
the release lookup resolved with HTTP 200 and an `.apk` asset exists, this
produces the completed response; in every other case control falls
through. -/
def successRespOf (now buildId : String) (run : WorkflowRun)
    (rel : Except String (Nat × List ReleaseAsset)) : Option HttpResponse :=
  if run.status = "completed" ∧ run.conclusion = some "success" then
    match rel with
    | .ok (st, assets) =>
      if st = 200 then
        match assets.find? (fun a => ".apk".data.isSuffixOf a.name.data) with
        | some asset => some ⟨200, makeSuccessResponse [
            ("completed", .bool true), ("status", .str "success"),
            ("download_url", .str asset.browser_download_url),
            ("build_id", .str buildId), ("completed_at", .str run.updated_at)] now⟩
        | none => none
      else none
    | .error _ => none
  else none

/-- The `GET /check-status/:buildId` handler of `server.js`
(lines 664-765): after the build-id and environment checks it queries the
workflow runs; when the matching run completed successfully it looks up the
release `build-<id>` and, if that resolves with HTTP 200 and carries an
`.apk` asset, reports completion with that asset's download URL; otherwise
it reports the failure or in-progress state. -/
def checkStatus (now : String) (env : GhEnv) (buildId : String)
    (up : StatusUpstream) : HttpResponse :=
  if buildId = "" then
    ⟨400, makeErrorResponse "MISSING_BUILD_ID" "Build ID is required" none now⟩
  else if !(truthy env.owner && truthy env.repo && truthy env.token) then
    ⟨500, makeErrorResponse "MISSING_ENV" "Server misconfigured" none now⟩
  else
    match up.runsResult with
    | .error _ =>
      ⟨500, makeErrorResponse "CHECK_FAILED" "Failed to check build status" none now⟩
    | .ok runs =>
      match findRun buildId runs with
      | none =>
        ⟨200, makeSuccessResponse [("completed", .bool false), ("status", .str "pending"),
          ("build_id", .str buildId), ("progress", .num 5)] now⟩
      | some run =>
        match successRespOf now buildId run up.releaseResult with
        | some r => r
        | none =>
          if run.status = "completed" ∧ run.conclusion = some "failure" then
            ⟨200, makeSuccessResponse [("completed", .bool true), ("status", .str "failed"),
              ("build_id", .str buildId), ("run_url", .str run.html_url)] now⟩
          else
            ⟨200, makeSuccessResponse [("completed", .bool false),
              ("status", .str run.status), ("build_id", .str buildId),
              ("progress", .num (if run.status = "in_progress" then 50 else 10)),
              ("run_url", .str run.html_url)] now⟩

end ServerJs

theorem successRespOf_wellformed (now buildId : String) (run : WorkflowRun)
    (rel : Except String (Nat × List ReleaseAsset)) (r : HttpResponse)
    (h : ServerJs.successRespOf now buildId run rel = some r) :
    r.status = 200 ∧ (r.body.lookup "completed").isSome = true := by
  unfold ServerJs.successRespOf at h
  repeat' split at h
  all_goals simp_all [ServerJs.makeSuccessResponse, Json.lookup, lookupField]
  subst h
  simp [Json.lookup, lookupField]

namespace Part004

/-- The `GET /check-status/:buildId` handler of `src/unnamed/part_004`
(lines 119-135): it queries the release `build-<id>`; on success it reports
completion with a download URL assembled from the repo, the build id and
the `appName` query parameter, and on any error it reports not-completed
(the outer catch is unreachable in this model since `res.json` does not
throw). -/
def checkStatus (owner repo buildId appName : String)
    (releaseResult : Except String Unit) : HttpResponse :=
  match releaseResult with
  | .ok _ => ⟨200, .obj [("completed", .bool true),
      ("download_url", .str ("https://github.com/" ++ owner ++ "/" ++ repo ++
        "/releases/download/build-" ++ buildId ++ "/" ++ appName ++ ".apk"))]⟩
  | .error _ => ⟨200, .obj [("completed", .bool false)]⟩

end Part004

theorem serverjs_checkStatus_reports_completion (now : String) (env : GhEnv)
    (buildId : String) (up : StatusUpstream) (runs : List WorkflowRun)
    (hId : buildId ≠ "") (henv : ServerJs.envOk env = true)
    (hruns : up.runsResult = .ok runs) :
    (ServerJs.checkStatus now env buildId up).status = 200 ∧
    ((ServerJs.checkStatus now env buildId up).body.lookup "completed").isSome = true := by
  unfold ServerJs.checkStatus
  rw [if_neg hId, if_neg (by simp_all [ServerJs.envOk]), hruns]
  dsimp only
  repeat' split
  all_goals try simp [ServerJs.makeSuccessResponse, Json.lookup, lookupField]
  rename_i r heq
  exact successRespOf_wellformed _ _ _ _ r heq

theorem serverjs_checkStatus_download_url (now : String) (env : GhEnv)
    (buildId : String) (up : StatusUpstream) (runs : List WorkflowRun)
    (run : WorkflowRun) (assets : List ReleaseAsset) (asset : ReleaseAsset)
    (hId : buildId ≠ "") (henv : ServerJs.envOk env = true)
    (hruns : up.runsResult = .ok runs)
    (hfind : findRun buildId runs = some run)
    (hstatus : run.status = "completed") (hconc : run.conclusion = some "success")
    (hrel : up.releaseResult = .ok (200, assets))
    (hasset : assets.find? (fun a => ".apk".data.isSuffixOf a.name.data) = some asset) :
    (ServerJs.checkStatus now env buildId up).status = 200 ∧
    (ServerJs.checkStatus now env buildId up).body.lookup "completed" =
      some (.bool true) ∧
    (ServerJs.checkStatus now env buildId up).body.lookup "download_url" =
      some (.str asset.browser_download_url) := by
  have hsucc : ServerJs.successRespOf now buildId run up.releaseResult =
      some ⟨200, ServerJs.makeSuccessResponse [
        ("completed", .bool true), ("status", .str "success"),
        ("download_url", .str asset.browser_download_url),
        ("build_id", .str buildId), ("completed_at", .str run.updated_at)] now⟩ := by
    unfold ServerJs.successRespOf
    rw [if_pos ⟨hstatus, hconc⟩, hrel]
    dsimp only
    rw [if_pos rfl, hasset]
  unfold ServerJs.checkStatus
  rw [if_neg hId, if_neg (by simp_all [ServerJs.envOk]), hruns]
  dsimp only
  rw [hfind]
  dsimp only
  rw [hsucc]
  simp [ServerJs.makeSuccessResponse, Json.lookup, lookupField]

/-- **C4.** The status-check endpoints query the CI provider's REST API and
return a JSON body reporting completion: in `server.js`, any run with the
environment configured and a successful runs query yields HTTP 200 with a
`completed` field, and when the matching workflow run completed
successfully and the release carries an `.apk` asset the body reports
`completed: true` with that asset's `browser_download_url` as
`download_url`; in the `part_004` variant, a successful release query
yields `completed: true` with the assembled download URL, and a failed one
yields `completed: false`. -/
theorem c4_check_status :
    (∀ (now : String) (env : GhEnv) (buildId : String) (up : StatusUpstream)
        (runs : List WorkflowRun),
      buildId ≠ "" → ServerJs.envOk env = true → up.runsResult = .ok runs →
      (ServerJs.checkStatus now env buildId up).status = 200 ∧
      ((ServerJs.checkStatus now env buildId up).body.lookup "completed").isSome = true) ∧
    (∀ (now : String) (env : GhEnv) (buildId : String) (up : StatusUpstream)
        (runs : List WorkflowRun) (run : WorkflowRun)
        (assets : List ReleaseAsset) (asset : ReleaseAsset),
      buildId ≠ "" → ServerJs.envOk env = true → up.runsResult = .ok runs →
      findRun buildId runs = some run →
      run.status = "completed" → run.conclusion = some "success" →
      up.releaseResult = .ok (200, assets) →
      assets.find? (fun a => ".apk".data.isSuffixOf a.name.data) = some asset →
      (ServerJs.checkStatus now env buildId up).status = 200 ∧
      (ServerJs.checkStatus now env buildId up).body.lookup "completed" =
        some (.bool true) ∧
      (ServerJs.checkStatus now env buildId up).body.lookup "download_url" =
        some (.str asset.browser_download_url)) ∧
    (∀ (owner repo buildId appName : String) (rel : Except String Unit),
      (Part004.checkStatus owner repo buildId appName rel).body.lookup "completed" =
        some (.bool (exceptOk rel)) ∧
      (exceptOk rel = true →
        (Part004.checkStatus owner repo buildId appName rel).body.lookup "download_url" =
          some (.str ("https://github.com/" ++ owner ++ "/" ++ repo ++
            "/releases/download/build-" ++ buildId ++ "/" ++ appName ++ ".apk")))) := by
  refine ⟨?_, ?_, ?_⟩
  · intro now env buildId up runs hId henv hruns
    exact serverjs_checkStatus_reports_completion now env buildId up runs hId henv hruns
  · intro now env buildId up runs run assets asset hId henv hruns hfind hstatus hconc hrel hasset
    exact serverjs_checkStatus_download_url now env buildId up runs run assets asset
      hId henv hruns hfind hstatus hconc hrel hasset
  · intro owner repo buildId appName rel
    rcases rel with e | u
    · simp [Part004.checkStatus, exceptOk, Json.lookup, lookupField]
    · simp [Part004.checkStatus, exceptOk, Json.lookup, lookupField]

/-- Witness for **C4** at a concrete completed build with an `.apk`
release asset. -/
theorem c4_witness :
    (ServerJs.checkStatus "t0" ⟨some "o", some "r", some "tok"⟩ "b1"
        ⟨.ok [⟨some "Build b1", none, "completed", some "success", "http://run", "t1"⟩],
         .ok (200, [⟨"app.apk", "http://dl/app.apk"⟩])⟩).status = 200 ∧
    (ServerJs.checkStatus "t0" ⟨some "o", some "r", some "tok"⟩ "b1"
        ⟨.ok [⟨some "Build b1", none, "completed", some "success", "http://run", "t1"⟩],
         .ok (200, [⟨"app.apk", "http://dl/app.apk"⟩])⟩).body.lookup "download_url" =
      some (.str "http://dl/app.apk") := by
  have h := c4_check_status.2.1 "t0" ⟨some "o", some "r", some "tok"⟩ "b1"
    ⟨.ok [⟨some "Build b1", none, "completed", some "success", "http://run", "t1"⟩],
     .ok (200, [⟨"app.apk", "http://dl/app.apk"⟩])⟩
    [⟨some "Build b1", none, "completed", some "success", "http://run", "t1"⟩]
    ⟨some "Build b1", none, "completed", some "success", "http://run", "t1"⟩
    [⟨"app.apk", "http://dl/app.apk"⟩] ⟨"app.apk", "http://dl/app.apk"⟩
    (by decide) (by decide) rfl (by decide) rfl rfl rfl (by decide)
  exact ⟨h.1, h.2.2⟩

-- =============================================================================
-- Upstream-call multiplicity across all variants (C7)
-- =============================================================================

/-- Abstracted outcome of one build request, for upstream-call-multiplicity
statements: did validation (including any file-extraction or configuration
check before the first upstream call) pass, did the first and second upload
promise resolve, and did the variant-specific post-upload check pass.  The
flags only ever cut a run short, so the skeletons below can drop later
calls but never add or repeat one — which is what the retry claim is
about. -/
structure PipelineOutcome where
  validationPasses : Bool
  firstUploadOk : Bool
  secondUploadOk : Bool
  extraCheckOk : Bool
deriving DecidableEq

/-- The straight-line shape shared by most variants: upload the icon,
upload the archive, then dispatch, each step reached only when the
previous one succeeded. -/
def twoUploadsThenDispatch (i : PipelineOutcome) : List CallKind :=
  if !i.validationPasses then []
  else .uploadA ::
    (if !i.firstUploadOk then []
     else .uploadB ::
       (if !i.secondUploadOk then [] else [.dispatchCall]))

/-- The shape with an extra check between the uploads and the dispatch
(`part_001`'s GitHub-configuration check after its uploads, and
`part_010`'s `/trigger-build` check of the two file.io responses). -/
def twoUploadsCheckThenDispatch (i : PipelineOutcome) : List CallKind :=
  if !i.validationPasses then []
  else .uploadA ::
    (if !i.firstUploadOk then []
     else .uploadB ::
       (if !i.secondUploadOk then []
        else if !i.extraCheckOk then [] else [.dispatchCall]))

/-- The shape of `part_005`'s `/trigger-build`, which receives URLs in the
body and only dispatches. -/
def dispatchOnly (i : PipelineOutcome) : List CallKind :=
  if !i.validationPasses then [] else [.dispatchCall]

/-- `POST /build-flutter` in `server.js`. -/
def upstreamCalls_serverjs : PipelineOutcome → List CallKind := twoUploadsThenDispatch
/-- `POST /build-flutter` in `part_000`. -/
def upstreamCalls_part000 : PipelineOutcome → List CallKind := twoUploadsThenDispatch
/-- `POST /trigger-build` in `part_001` (field validation, each upload in
its own try/catch, then a GitHub-configuration check before the dispatch). -/
def upstreamCalls_part001 : PipelineOutcome → List CallKind := twoUploadsCheckThenDispatch
/-- `POST /build-web2apk` in `part_002` (icon upload, then archive
assembly and upload, then dispatch). -/
def upstreamCalls_part002 : PipelineOutcome → List CallKind := twoUploadsThenDispatch
/-- `POST /build-flutter` in the first service of `part_003`. -/
def upstreamCalls_part003a : PipelineOutcome → List CallKind := twoUploadsThenDispatch
/-- `POST /build-flutter` in the second service of `part_003`. -/
def upstreamCalls_part003b : PipelineOutcome → List CallKind := twoUploadsThenDispatch
/-- `POST /build-flutter` in `part_004`. -/
def upstreamCalls_part004 : PipelineOutcome → List CallKind := twoUploadsThenDispatch
/-- `POST /trigger-build` in the first service of `part_005` (no uploads:
the request body already carries the URLs). -/
def upstreamCalls_part005a : PipelineOutcome → List CallKind := dispatchOnly
/-- `POST /build-flutter` in the second service of `part_005`. -/
def upstreamCalls_part005b : PipelineOutcome → List CallKind := twoUploadsThenDispatch
/-- `POST /build-flutter` in the first service of `part_006`. -/
def upstreamCalls_part006a : PipelineOutcome → List CallKind := twoUploadsThenDispatch
/-- `POST /build-flutter` in the second service of `part_006`. -/
def upstreamCalls_part006b : PipelineOutcome → List CallKind := twoUploadsThenDispatch
/-- `POST /build-flutter` in `part_007`. -/
def upstreamCalls_part007 : PipelineOutcome → List CallKind := twoUploadsThenDispatch
/-- `POST /build-flutter` in `part_008`. -/
def upstreamCalls_part008 : PipelineOutcome → List CallKind := twoUploadsThenDispatch
/-- `POST /build-flutter` in `part_009`. -/
def upstreamCalls_part009 : PipelineOutcome → List CallKind := twoUploadsThenDispatch
/-- `POST /trigger-build` in the first service of `part_010` (project and
icon uploads to file.io, a success check on both responses, then the
dispatch). -/
def upstreamCalls_part010a : PipelineOutcome → List CallKind := twoUploadsCheckThenDispatch
/-- `POST /build-flutter` in the second service of `part_010`. -/
def upstreamCalls_part010b : PipelineOutcome → List CallKind := twoUploadsThenDispatch
/-- `POST /build-web2apk` in the third service of `part_010`. -/
def upstreamCalls_part010c : PipelineOutcome → List CallKind := twoUploadsThenDispatch
/-- `POST /trigger-build` in the first service of `part_011`. -/
def upstreamCalls_part011a : PipelineOutcome → List CallKind := twoUploadsThenDispatch
/-- `POST /build-flutter` in the second service of `part_011`. -/
def upstreamCalls_part011b : PipelineOutcome → List CallKind := twoUploadsThenDispatch

/-- All build-request handlers of the repository's fourteen source files,
one entry per handler. -/
def variantUpstreamCalls : List (PipelineOutcome → List CallKind) :=
  [upstreamCalls_serverjs, upstreamCalls_part000, upstreamCalls_part001,
   upstreamCalls_part002, upstreamCalls_part003a, upstreamCalls_part003b,
   upstreamCalls_part004, upstreamCalls_part005a, upstreamCalls_part005b,
   upstreamCalls_part006a, upstreamCalls_part006b, upstreamCalls_part007,
   upstreamCalls_part008, upstreamCalls_part009, upstreamCalls_part010a,
   upstreamCalls_part010b, upstreamCalls_part010c, upstreamCalls_part011a,
   upstreamCalls_part011b]

/-- A variant retries an upstream call when some run performs the same
kind of call at least twice. -/
def retriesUpstream (f : PipelineOutcome → List CallKind) : Prop :=
  ∃ (i : PipelineOutcome) (k : CallKind), 2 ≤ (f i).count k

theorem twoUploadsThenDispatch_count_le (i : PipelineOutcome) (k : CallKind) :
    (twoUploadsThenDispatch i).count k ≤ 1 := by
  rcases i with ⟨v, a, b, c⟩
  cases v <;> cases a <;> cases b <;> cases c <;> cases k <;> decide

theorem twoUploadsCheckThenDispatch_count_le (i : PipelineOutcome) (k : CallKind) :
    (twoUploadsCheckThenDispatch i).count k ≤ 1 := by
  rcases i with ⟨v, a, b, c⟩
  cases v <;> cases a <;> cases b <;> cases c <;> cases k <;> decide

theorem dispatchOnly_count_le (i : PipelineOutcome) (k : CallKind) :
    (dispatchOnly i).count k ≤ 1 := by
  rcases i with ⟨v, a, b, c⟩
  cases v <;> cases a <;> cases b <;> cases c <;> cases k <;> decide

/-- **C7 (amended).** No variant implements retry logic: in every one of
the repository's build handlers, each kind of upstream call (icon upload,
archive upload, repository dispatch) is attempted at most once per
request. -/
theorem c7_no_variant_retries (v : Fin variantUpstreamCalls.length)
    (i : PipelineOutcome) (k : CallKind) :
    ((variantUpstreamCalls.get v) i).count k ≤ 1 := by
  fin_cases v <;>
    first
      | exact twoUploadsThenDispatch_count_le i k
      | exact twoUploadsCheckThenDispatch_count_le i k
      | exact dispatchOnly_count_le i k

/-- Counterexample to **C7** as stated: it is not the case that exactly
one variant wraps its upstream calls in retry logic — no variant retries
at all, so no such single retrying variant exists. -/
theorem c7_counterexample :
    ¬ ∃ f, f ∈ variantUpstreamCalls ∧ retriesUpstream f ∧
      ∀ g ∈ variantUpstreamCalls, retriesUpstream g → g = f := by
  rintro ⟨f, hf, ⟨i, k, hk⟩, -⟩
  simp only [variantUpstreamCalls, List.mem_cons, List.not_mem_nil, or_false] at hf
  have hle : (f i).count k ≤ 1 := by
    rcases hf with rfl | rfl | rfl | rfl | rfl | rfl | rfl | rfl | rfl | rfl | rfl |
      rfl | rfl | rfl | rfl | rfl | rfl | rfl | rfl <;>
      first
        | exact twoUploadsThenDispatch_count_le i k
        | exact twoUploadsCheckThenDispatch_count_le i k
        | exact dispatchOnly_count_le i k
  omega

theorem serverjs_calls_abstraction (ctx : ReqCtx) (env : GhEnv) (body : BuildReqBody)
    (files : BuildFiles) (up : BuildUpstream) :
    callKinds (ServerJs.buildFlutter ctx env body files up) =
      upstreamCalls_serverjs ⟨ServerJs.envOk env && ServerJs.requestValid body files,
        exceptOk up.iconResult, exceptOk up.zipResult, true⟩ := by
  unfold ServerJs.buildFlutter upstreamCalls_serverjs twoUploadsThenDispatch
  repeat' split
  all_goals simp_all [callKinds, Step.callKind, ServerJs.envOk, ServerJs.requestValid,
    truthy, exceptOk]
  all_goals omega

theorem part000_calls_abstraction (nowMs owner repo appName packageName : String)
    (files : BuildFiles) (up : SimpleUpstream) :
    callKinds (Part000.buildFlutter nowMs owner repo appName packageName files up) =
      upstreamCalls_part000 ⟨files.icon.isSome && files.projectZip.isSome,
        exceptOk up.iconResult, exceptOk up.zipResult, true⟩ := by
  unfold Part000.buildFlutter upstreamCalls_part000 twoUploadsThenDispatch
  repeat' split
  all_goals simp_all [callKinds, Step.callKind, exceptOk, Option.isSome_iff_ne_none]

theorem part004_calls_abstraction (nowMs owner repo : String)
    (appName packageName : Option String) (za : ZipArchive)
    (files : BuildFiles) (up : SimpleUpstream) :
    callKinds (Part004.buildFlutter nowMs owner repo appName packageName za files up) =
      upstreamCalls_part004 ⟨files.icon.isSome && files.projectZip.isSome,
        exceptOk up.iconResult, exceptOk up.zipResult, true⟩ := by
  unfold Part004.buildFlutter upstreamCalls_part004 twoUploadsThenDispatch
  repeat' split
  all_goals simp_all [callKinds, Step.callKind, exceptOk, Option.isSome_iff_ne_none]
